import Mathlib

/-!  Verification development for the SportConnect client.

Shallow embedding of the two algorithmic cores:

* the recommendation scorer of the Search component
  (calculateHaversineDistance, calculateDistance,
  calculateSportRatingDifference, the piecewise location score, and the
  score/sort/truncate pipeline of loadRecommendations), modelled over the
  real numbers;
* the optimistic like/follow reconciler (the toggleLike handler and its
  Firestore transaction in the Post component, and the followUser
  transaction in the Profile component), modelled as pure functions from
  document snapshots to written documents.

JavaScript conventions are modelled explicitly: the Infinity sentinel
returned for a missing distance or missing rating overlap becomes none of
an Option; absent object fields read back through a || default become the
default value itself; the falsy-zero behaviour of checks such as
!userLoc.latitude and userRatings[sport] && postUserRatings[sport] is kept
(a coordinate or rating equal to 0 counts as absent).  Array.prototype.sort
with the comparator (a, b) => a.score - b.score is a stable ascending sort
by score and is modelled by List.mergeSort on the same ordering.  -/

namespace Search

/-- Geographic point recorded on a user profile or denormalised onto a
post (the latitude and longitude fields of the location object). -/
structure Location where
  latitude : ℝ
  longitude : ℝ

/-- The fixed sport enumeration iterated over by
calculateSportRatingDifference. -/
inductive Sport where
  | tennis
  | basketball
  | soccer
  | football
  | baseball
  | golf
  | swimming
  | running
deriving DecidableEq

/-- The sports array of calculateSportRatingDifference. -/
def sports : List Sport :=
  [Sport.tennis, Sport.basketball, Sport.soccer, Sport.football,
   Sport.baseball, Sport.golf, Sport.swimming, Sport.running]

/-- A sparse sport-rating map: none models an absent key. -/
def SportRatings : Type := Sport → Option ℝ

/-- JavaScript Math.atan2. -/
noncomputable def atan2 (y x : ℝ) : ℝ :=
  if 0 < x then Real.arctan (y / x)
  else if x < 0 ∧ 0 ≤ y then Real.arctan (y / x) + Real.pi
  else if x < 0 ∧ y < 0 then Real.arctan (y / x) - Real.pi
  else if x = 0 ∧ 0 < y then Real.pi / 2
  else if x = 0 ∧ y < 0 then -(Real.pi / 2)
  else 0

/-- Haversine great-circle distance in kilometres
(calculateHaversineDistance in Search.tsx). -/
noncomputable def calculateHaversineDistance (lat1 lon1 lat2 lon2 : ℝ) : ℝ :=
  let R : ℝ := 6371
  let dLat := (lat2 - lat1) * Real.pi / 180
  let dLon := (lon2 - lon1) * Real.pi / 180
  let a := Real.sin (dLat / 2) * Real.sin (dLat / 2) +
    Real.cos (lat1 * Real.pi / 180) * Real.cos (lat2 * Real.pi / 180) *
    Real.sin (dLon / 2) * Real.sin (dLon / 2)
  let c := 2 * atan2 (Real.sqrt a) (Real.sqrt (1 - a))
  R * c

/-- calculateDistance in Search.tsx.  The result none models the Infinity
sentinel returned when either location is missing; the equality-with-zero
disjuncts mirror the falsy-zero guards !userLoc.latitude and so on. -/
noncomputable def calculateDistance (userLoc postUserLoc : Option Location) : Option ℝ :=
  match userLoc, postUserLoc with
  | some u, some p =>
    if u.latitude = 0 ∨ u.longitude = 0 ∨ p.latitude = 0 ∨ p.longitude = 0 then none
    else some (calculateHaversineDistance u.latitude u.longitude p.latitude p.longitude)
  | _, _ => none

/-- calculateSportRatingDifference in Search.tsx.  The result none models
the Infinity sentinel (missing ratings object or no common sport); a sport
counts as common only when both ratings are present and nonzero, mirroring
the truthiness test userRatings[sport] && postUserRatings[sport]. -/
noncomputable def calculateSportRatingDifference
    (userRatings postUserRatings : Option SportRatings) : Option ℝ :=
  match userRatings, postUserRatings with
  | some ur, some pr =>
    let acc := sports.foldl (fun acc sport =>
      match ur sport, pr sport with
      | some u, some p => if u ≠ 0 ∧ p ≠ 0 then (acc.1 + |u - p|, acc.2 + 1) else acc
      | _, _ => acc) ((0 : ℝ), (0 : ℕ))
    if acc.2 = 0 then none else some (acc.1 / (acc.2 : ℝ))
  | _, _ => none

/-- The piecewise location score computed in loadRecommendations from a
known finite distance. -/
noncomputable def locationScore (distance : ℝ) : ℝ :=
  if distance ≤ 10 then distance * 10
  else if distance ≤ 50 then 100 + (distance - 10) * 5
  else if distance ≤ 200 then 300 + (distance - 50) * 2
  else 600 + min (distance - 200) 400

/-- Location score including the unknown-distance case: the initial value
1000 is kept when distance === Infinity. -/
noncomputable def locationScoreOf (distance : Option ℝ) : ℝ :=
  match distance with
  | none => 1000
  | some d => locationScore d

/-- ratingScore in loadRecommendations: 100 when the rating difference is
the Infinity sentinel, otherwise ratingDifference * 10. -/
noncomputable def ratingScoreOf (ratingDifference : Option ℝ) : ℝ :=
  match ratingDifference with
  | none => 100
  | some r => r * 10

/-- The slice of a user document the scorer reads (CurrentUserProfile in
Search.tsx, also the relevant slice of the users map entries). -/
structure CurrentUserProfile where
  location : Option Location
  sportRatings : Option SportRatings

/-- The slice of a post document the scorer reads (PostData in
Search.tsx); the content payload is opaque to the scorer. -/
structure PostData where
  id : String
  userId : String
  userLocation : Option Location
  userSportRatings : Option SportRatings

/-- A scored post as produced by the map step of loadRecommendations:
the post together with its composite score and its distance (none when
the distance was the Infinity sentinel). -/
structure ScoredPost where
  post : PostData
  score : ℝ
  distance : Option ℝ

/-- The effective location of a post owner: the location denormalised on
the post if present, else the live profile location
(post.userLocation || postUser?.location). -/
def postUserLocation (users : String → Option CurrentUserProfile)
    (post : PostData) : Option Location :=
  post.userLocation.orElse (fun _ => (users post.userId).bind CurrentUserProfile.location)

/-- The effective sport ratings of a post owner
(post.userSportRatings || postUser?.sportRatings). -/
def postUserSportRatings (users : String → Option CurrentUserProfile)
    (post : PostData) : Option SportRatings :=
  post.userSportRatings.orElse (fun _ => (users post.userId).bind CurrentUserProfile.sportRatings)

/-- The per-post scoring step of loadRecommendations: composite score is
locationScore * 0.7 + ratingScore * 0.3. -/
noncomputable def scorePost (currentUserProfile : CurrentUserProfile)
    (users : String → Option CurrentUserProfile) (post : PostData) : ScoredPost :=
  let distance := calculateDistance currentUserProfile.location (postUserLocation users post)
  let ratingDifference := calculateSportRatingDifference
    currentUserProfile.sportRatings (postUserSportRatings users post)
  let totalScore := locationScoreOf distance * 0.7 + ratingScoreOf ratingDifference * 0.3
  { post := post, score := totalScore, distance := distance }

/-- The comparator (a, b) => a.score - b.score as the Boolean ordering of
the stable ascending sort. -/
noncomputable def byScore (a b : ScoredPost) : Bool :=
  decide (a.score ≤ b.score)

/-- The pure core of loadRecommendations: drop the viewer's own posts,
score each remaining post, stable-sort ascending by composite score and
keep the first 15. -/
noncomputable def loadRecommendations (uid : String)
    (currentUserProfile : CurrentUserProfile)
    (users : String → Option CurrentUserProfile)
    (posts : List PostData) : List ScoredPost :=
  (((posts.filter (fun p => p.userId != uid)).map
      (scorePost currentUserProfile users)).mergeSort byScore).take 15

/-- Formalisation of the spec sentence behind claim C6: the similarity is
the average, over all sports whose rating key is present in both profiles,
of the absolute rating difference; none when no sport is present in both. -/
noncomputable def specSkillSimilarity
    (userRatings postUserRatings : Option SportRatings) : Option ℝ :=
  match userRatings, postUserRatings with
  | some ur, some pr =>
    let common := sports.filter (fun s => (ur s).isSome && (pr s).isSome)
    if common.length = 0 then none
    else some ((common.map (fun s => |(ur s).getD 0 - (pr s).getD 0|)).sum / (common.length : ℝ))
  | _, _ => none

/-- A sport is rated nonzero on both sides: the truthiness condition the
implementation actually uses to treat a sport as common. -/
noncomputable def bothRatedNonzero (ur pr : SportRatings) (s : Sport) : Bool :=
  match ur s, pr s with
  | some u, some p => decide (u ≠ 0) && decide (p ≠ 0)
  | _, _ => false

/-- The amended form of the C6 similarity: the average, over all sports
present with a nonzero rating in both profiles, of the absolute rating
difference; none when there is no such sport. -/
noncomputable def specSkillSimilarityNonzero
    (userRatings postUserRatings : Option SportRatings) : Option ℝ :=
  match userRatings, postUserRatings with
  | some ur, some pr =>
    let common := sports.filter (bothRatedNonzero ur pr)
    if common.length = 0 then none
    else some ((common.map (fun s => |(ur s).getD 0 - (pr s).getD 0|)).sum / (common.length : ℝ))
  | _, _ => none

end Search

/-- The slice of an authoritative post document the like transaction
reads and writes; fields not touched by the transaction are omitted
(a Firestore update leaves them unchanged). -/
structure PostDoc where
  likes : List String
  likeCount : Int
deriving DecidableEq

/-- An authoritative user document as read and written by the like and
follow transactions.  Absent fields read back through a || default are
identified with the default value. -/
structure UserDoc where
  uid : String
  email : String
  displayName : String
  bio : String
  profileImageUrl : String
  followersCount : Int
  followingCount : Int
  postsCount : Int
  followers : List String
  following : List String
  likedPosts : List String
  createdAt : Nat
deriving DecidableEq

/-- The local display state of the Post component (interface PostData in
Post.tsx), held in currentPostData. -/
structure PostData where
  id : String
  text : String
  userId : String
  userDisplayName : String
  likeCount : Nat
  commentCount : Nat
  likes : List String
  createdAt : Nat
deriving DecidableEq

/-- The body of the runTransaction closure of toggleLike in Post.tsx.
Inputs are the transactional reads of the post and user documents (none
when the document does not exist), the result is the pair of documents
written atomically, or an error when the post is missing (in which case
nothing is written). -/
def toggleLikeTransaction (uid email displayName postId : String) (now : Nat)
    (postSnap : Option PostDoc) (userSnap : Option UserDoc) :
    Except String (PostDoc × UserDoc) :=
  match postSnap with
  | none => Except.error ("Post does not exist")
  | some postDataFromDb =>
    let currentLikes := postDataFromDb.likes
    let userLikedPosts := match userSnap with
      | some u => u.likedPosts
      | none => []
    let isCurrentlyLiked := currentLikes.contains uid
    let newLikes := if isCurrentlyLiked
      then currentLikes.filter (fun i => i != uid)
      else currentLikes ++ [uid]
    let newUserLikedPosts := if isCurrentlyLiked
      then userLikedPosts.filter (fun i => i != postId)
      else userLikedPosts ++ [postId]
    let newPost : PostDoc := { postDataFromDb with
      likes := newLikes, likeCount := (newLikes.length : Int) }
    let newUser : UserDoc := match userSnap with
      | some u => { u with likedPosts := newUserLikedPosts }
      | none =>
        { uid := uid, email := email, displayName := displayName,
          bio := "", profileImageUrl := "",
          followersCount := 0, followingCount := 0, postsCount := 0,
          followers := [], following := [], likedPosts := newUserLikedPosts,
          createdAt := now }
    Except.ok (newPost, newUser)

/-- The toggleLike handler of Post.tsx: snapshot the current display
state, apply the optimistic update, run the transaction, and on failure
restore the snapshot.  The first component is the final display state,
the second the transaction outcome. -/
def toggleLike (uid email displayName : String) (now : Nat)
    (currentPostData : PostData)
    (postSnap : Option PostDoc) (userSnap : Option UserDoc) :
    PostData × Except String (PostDoc × UserDoc) :=
  let originalPostState := currentPostData
  let liked := currentPostData.likes.contains uid
  let newLikesArray := if liked
    then currentPostData.likes.filter (fun i => i != uid)
    else currentPostData.likes ++ [uid]
  let optimistic : PostData := { currentPostData with
    likes := newLikesArray, likeCount := newLikesArray.length }
  match toggleLikeTransaction uid email displayName currentPostData.id now postSnap userSnap with
  | Except.ok r => (optimistic, Except.ok r)
  | Except.error e => (originalPostState, Except.error e)

/-- The body of the runTransaction closure of followUser in Profile.tsx.
The result pairs the written current-user document with the written
target-user document (none when the target document is left untouched:
the unfollow path with a missing target). -/
def followUserTransaction (currentUid targetUserId : String)
    (viewedDisplayName : Option String) (now : Nat)
    (currentUserSnap targetUserSnap : Option UserDoc) :
    Except String (UserDoc × Option UserDoc) :=
  match currentUserSnap with
  | none => Except.error ("Current user document does not exist!")
  | some currentUserData =>
    let currentFollowing := currentUserData.following
    let isCurrentlyFollowing := currentFollowing.contains targetUserId
    let currentFollowingCount := currentUserData.followingCount
    if isCurrentlyFollowing then
      let newFollowing := currentFollowing.filter (fun i => i != targetUserId)
      let newCur := { currentUserData with
        following := newFollowing,
        followingCount := max 0 (currentFollowingCount - 1) }
      match targetUserSnap with
      | some targetUserData =>
        let newTargetFollowers := targetUserData.followers.filter (fun i => i != currentUid)
        Except.ok (newCur, some { targetUserData with
          followers := newTargetFollowers,
          followersCount := max 0 (targetUserData.followersCount - 1) })
      | none => Except.ok (newCur, none)
    else
      let newCur := { currentUserData with
        following := currentFollowing ++ [targetUserId],
        followingCount := currentFollowingCount + 1 }
      match targetUserSnap with
      | some targetUserData =>
        Except.ok (newCur, some { targetUserData with
          followers := targetUserData.followers ++ [currentUid],
          followersCount := targetUserData.followersCount + 1 })
      | none =>
        Except.ok (newCur, some {
          uid := targetUserId, email := "",
          displayName := viewedDisplayName.getD ("Unknown User"),
          bio := "", profileImageUrl := "",
          followersCount := 1, followingCount := 0, postsCount := 0,
          followers := [currentUid], following := [], likedPosts := [],
          createdAt := now })

/-- A rating profile holding only a tennis rating of 5, used by the
concrete scenario of the spec's testable properties. -/
noncomputable def tennisFive : Search.SportRatings :=
  fun s => match s with
  | Search.Sport.tennis => some 5
  | _ => none

/-- The concrete scenario viewer: at latitude 0, longitude 0, with
tennis rating 5. -/
noncomputable def viewerScenario : Search.CurrentUserProfile :=
  { location := some { latitude := 0, longitude := 0 }, sportRatings := some tennisFive }

/-- Concrete candidate A: owner at latitude 0, longitude 0.09, tennis
rating 5, denormalised on the post. -/
noncomputable def candidateA : Search.PostData :=
  { id := "postA", userId := "alice",
    userLocation := some { latitude := 0, longitude := 0.09 },
    userSportRatings := some tennisFive }

/-- Concrete candidate B: owner with no location, tennis rating 5. -/
noncomputable def candidateB : Search.PostData :=
  { id := "postB", userId := "bob",
    userLocation := none,
    userSportRatings := some tennisFive }

/-- An empty users map: no live profile to fall back to. -/
def noUsers : String → Option Search.CurrentUserProfile := fun _ => none

/-! ## Theorems -/

/-- C2: if the authoritative transaction of a like toggle fails (for
example because the post document does not exist), the local display
state is restored exactly to the pre-toggle snapshot: every field of the
post state is identical to its value before the toggle. -/
theorem toggleLike_rollback (uid email displayName : String) (now : Nat)
    (currentPostData : PostData) (postSnap : Option PostDoc)
    (userSnap : Option UserDoc) (e : String)
    (h : (toggleLike uid email displayName now currentPostData postSnap userSnap).2
        = Except.error e) :
    (toggleLike uid email displayName now currentPostData postSnap userSnap).1
      = currentPostData := by
  cases htx : toggleLikeTransaction uid email displayName currentPostData.id now postSnap userSnap with
  | ok r => simp [toggleLike, htx] at h
  | error e2 => simp [toggleLike, htx]

/-- Witness for toggleLike_rollback: a concrete toggle against a missing
post document fails and leaves the display state unchanged. -/
theorem toggleLike_rollback_witness :
    (toggleLike ("u1") ("u1@mail") ("U1") 0
        ⟨("p1"), ("hello"), ("a1"), ("A1"), 2, 0, [("x"), ("y")], 7⟩ none none).2
      = Except.error ("Post does not exist") ∧
    (toggleLike ("u1") ("u1@mail") ("U1") 0
        ⟨("p1"), ("hello"), ("a1"), ("A1"), 2, 0, [("x"), ("y")], 7⟩ none none).1
      = ⟨("p1"), ("hello"), ("a1"), ("A1"), 2, 0, [("x"), ("y")], 7⟩ :=
  ⟨rfl, toggleLike_rollback ("u1") ("u1@mail") ("U1") 0
    ⟨("p1"), ("hello"), ("a1"), ("A1"), 2, 0, [("x"), ("y")], 7⟩ none none
    ("Post does not exist") rfl⟩

/-- C3: starting from an authoritative post whose likes list is
duplicate-free with likeCount equal to its cardinality, running the like
transaction twice for the same actor and post, both runs succeeding with
no interleaved writer, returns the likes membership set to its pre-toggle
value (as a permutation, hence equal as a set), keeps it duplicate-free,
and leaves likeCount equal to the cardinality of that set. -/
theorem toggleLike_twice_identity
    (uid email1 displayName1 email2 displayName2 postId : String)
    (now1 now2 : Nat) (pd : PostDoc) (us : Option UserDoc)
    (hnd : pd.likes.Nodup) (_hcnt : pd.likeCount = (pd.likes.length : Int))
    (r1 r2 : PostDoc × UserDoc)
    (h1 : toggleLikeTransaction uid email1 displayName1 postId now1 (some pd) us
        = Except.ok r1)
    (h2 : toggleLikeTransaction uid email2 displayName2 postId now2
        (some r1.1) (some r1.2) = Except.ok r2) :
    r2.1.likes.Perm pd.likes ∧ r2.1.likes.Nodup ∧
      r2.1.likeCount = (r2.1.likes.length : Int) := by
  cases hmem : pd.likes.contains uid with
  | true =>
    have hmem' : uid ∈ pd.likes := by simpa using hmem
    simp only [toggleLikeTransaction, hmem, if_true] at h1
    obtain rfl : _ = r1 := by exact Except.ok.inj h1
    have hfil : pd.likes.filter (fun i => i != uid) = pd.likes.erase uid :=
      (List.Nodup.erase_eq_filter hnd uid).symm
    have hni : uid ∉ pd.likes.filter (fun i => i != uid) := by
      simp [List.mem_filter]
    have hc2 : (pd.likes.filter (fun i => i != uid)).contains uid = false := by
      simp only [List.contains, List.elem_eq_mem, decide_eq_false_iff_not]
      exact hni
    simp only [toggleLikeTransaction, hc2, if_false, Bool.false_eq_true] at h2
    obtain rfl : _ = r2 := by exact Except.ok.inj h2
    refine ⟨?_, ?_, rfl⟩
    · have h3 : pd.likes.Perm (uid :: pd.likes.erase uid) := List.perm_cons_erase hmem'
      have h4 : (pd.likes.filter (fun i => i != uid) ++ [uid]).Perm
          (uid :: pd.likes.filter (fun i => i != uid)) :=
        List.perm_append_singleton uid _
      exact h4.trans (hfil.symm ▸ h3.symm)
    · have h5 : (pd.likes.filter (fun i => i != uid)).Nodup := hnd.filter _
      simpa [List.nodup_append] using And.intro h5 hni
  | false =>
    have hmem' : uid ∉ pd.likes := by simpa using hmem
    simp only [toggleLikeTransaction, hmem, if_false, Bool.false_eq_true] at h1
    obtain rfl : _ = r1 := by exact Except.ok.inj h1
    have hc2 : (pd.likes ++ [uid]).contains uid = true := by
      simp
    simp only [toggleLikeTransaction, hc2, if_true] at h2
    obtain rfl : _ = r2 := by exact Except.ok.inj h2
    have hfil : (pd.likes ++ [uid]).filter (fun i => i != uid) = pd.likes := by
      rw [List.filter_append]
      have h1' : pd.likes.filter (fun i => i != uid) = pd.likes :=
        List.filter_eq_self.mpr (fun a ha => by
          simp only [bne_iff_ne, ne_eq]
          intro hEq; exact hmem' (hEq ▸ ha))
      simp [h1']
    refine ⟨?_, ?_, rfl⟩
    · rw [hfil]
    · rw [hfil]; exact hnd

/-- Witness for toggleLike_twice_identity: a concrete double toggle on a
post liked by one other user. -/
theorem toggleLike_twice_identity_witness :
    ([("alice")] : List String).Nodup ∧
    ∃ r1 r2 : PostDoc × UserDoc,
      toggleLikeTransaction ("bob") ("e") ("d") ("p1") 0
          (some { likes := [("alice")], likeCount := 1 }) none = Except.ok r1 ∧
      toggleLikeTransaction ("bob") ("e") ("d") ("p1") 1
          (some r1.1) (some r1.2) = Except.ok r2 ∧
      r2.1.likes.Perm [("alice")] ∧ r2.1.likes.Nodup ∧
        r2.1.likeCount = (r2.1.likes.length : Int) := by
  refine ⟨by decide, _, _, rfl, rfl, ?_⟩
  exact toggleLike_twice_identity ("bob") ("e") ("d") ("e") ("d") ("p1") 0 1
    { likes := [("alice")], likeCount := 1 } none (by decide) (by decide)
    _ _ rfl rfl

/-- C10 (amended): in the like transaction, when the post document exists
but the actor's user document does not, the transaction succeeds and
creates the user document atomically with initialized defaults (empty
bio, zero follower/following/post counts, empty followers/following
lists); its likedPosts list is exactly the toggled post id when the
toggle is a like (the actor is not in the post's authoritative likes),
and empty when the toggle is an unlike.  When the post document does not
exist the transaction throws and nothing is written. -/
theorem toggleLike_creates_user (uid email displayName postId : String) (now : Nat) :
    (∀ us, toggleLikeTransaction uid email displayName postId now none us
        = Except.error ("Post does not exist")) ∧
    (∀ pd : PostDoc, ∃ p u,
      toggleLikeTransaction uid email displayName postId now (some pd) none
          = Except.ok (p, u) ∧
      u.uid = uid ∧ u.email = email ∧ u.displayName = displayName ∧
      u.bio = "" ∧ u.followersCount = 0 ∧ u.followingCount = 0 ∧
      u.postsCount = 0 ∧ u.followers = [] ∧ u.following = [] ∧
      u.likedPosts = (if pd.likes.contains uid then ([] : List String) else [postId])) := by
  constructor
  · intro us; rfl
  · intro pd
    refine ⟨_, _, rfl, rfl, rfl, rfl, rfl, rfl, rfl, rfl, rfl, rfl, ?_⟩
    cases h : pd.likes.contains uid <;>
      simp [toggleLikeTransaction, h]

/-- Counterexample for C10 as stated: when the actor is already in the
post's authoritative likes (an unlike) and the user document is missing,
the document is created with an empty likedPosts list, not with a list
containing exactly the toggled post id. -/
theorem toggleLike_creates_user_counterexample :
    ∃ p u, toggleLikeTransaction ("u1") ("e") ("d") ("p1") 0
        (some { likes := [("u1")], likeCount := 1 }) none = Except.ok (p, u) ∧
      u.likedPosts = [] ∧ u.likedPosts ≠ [("p1")] := by
  refine ⟨_, _, rfl, by decide, by decide⟩

/-- C1 (amended): set and count are written together in one atomic
transaction (modelled by each transaction returning all written documents
at once).  For the like toggle the invariant is preserved exactly as
claimed: likeCount is always written as the length of the written likes
list, and the follower/following pairs of the written user document keep
the invariant they had.  For the follow toggle the invariant is preserved
under the additional assumptions that the membership lists involved are
duplicate-free and that the relation is symmetric between the two
documents (the target is in the actor's following list iff the actor is
in the target's followers list); without those assumptions the unfollow
path can decrement a count by one while the list length changes by a
different amount. -/
theorem toggle_count_invariant :
    (∀ uid email displayName postId now pd us (r : PostDoc × UserDoc),
      (pd.likes.length : Int) = pd.likeCount →
      (∀ u, us = some u → (u.followers.length : Int) = u.followersCount ∧
        (u.following.length : Int) = u.followingCount) →
      toggleLikeTransaction uid email displayName postId now (some pd) us = Except.ok r →
      ((r.1.likes.length : Int) = r.1.likeCount ∧
        (r.2.followers.length : Int) = r.2.followersCount ∧
        (r.2.following.length : Int) = r.2.followingCount)) ∧
    (∀ currentUid targetUserId vdn now (cu : UserDoc) ts (r : UserDoc × Option UserDoc),
      (cu.following.length : Int) = cu.followingCount →
      cu.following.Nodup →
      (∀ t : UserDoc, ts = some t →
        ((t.followers.length : Int) = t.followersCount ∧ t.followers.Nodup ∧
          (targetUserId ∈ cu.following ↔ currentUid ∈ t.followers))) →
      followUserTransaction currentUid targetUserId vdn now (some cu) ts = Except.ok r →
      ((r.1.following.length : Int) = r.1.followingCount ∧
        ∀ nt : UserDoc, r.2 = some nt → (nt.followers.length : Int) = nt.followersCount)) := by
  constructor
  · intro uid email displayName postId now pd us r hpre huser htx
    cases hmem : pd.likes.contains uid with
    | true =>
      simp only [toggleLikeTransaction, hmem, if_true] at htx
      obtain rfl : _ = r := Except.ok.inj htx
      refine ⟨rfl, ?_⟩
      cases us with
      | none => exact ⟨rfl, rfl⟩
      | some u => exact huser u rfl
    | false =>
      simp only [toggleLikeTransaction, hmem, if_false, Bool.false_eq_true] at htx
      obtain rfl : _ = r := Except.ok.inj htx
      refine ⟨rfl, ?_⟩
      cases us with
      | none => exact ⟨rfl, rfl⟩
      | some u => exact huser u rfl
  · intro currentUid targetUserId vdn now cu ts r hcnt hnd htgt htx
    cases hmem : cu.following.contains targetUserId with
    | true =>
      have hmem' : targetUserId ∈ cu.following := by simp_all
      have herase : cu.following.filter (fun i => i != targetUserId)
          = cu.following.erase targetUserId :=
        (List.Nodup.erase_eq_filter hnd targetUserId).symm
      have hlen : (cu.following.filter (fun i => i != targetUserId)).length
          = cu.following.length - 1 := by
        rw [herase]
        exact List.length_erase_of_mem hmem'
      have hpos : 1 ≤ cu.following.length := List.length_pos.mpr
        (by intro h; rw [h] at hmem'; exact (List.not_mem_nil _ hmem'))
      cases ts with
      | none =>
        simp only [toggleLikeTransaction, followUserTransaction, hmem, if_true] at htx
        obtain rfl : _ = r := Except.ok.inj htx
        refine ⟨?_, ?_⟩
        · simp only [hlen]
          omega
        · intro nt hnt; exact absurd hnt (by simp)
      | some t =>
        obtain ⟨htc, htnd, hsym⟩ := htgt t rfl
        have hmemT : currentUid ∈ t.followers := hsym.mp hmem'
        have heraseT : t.followers.filter (fun i => i != currentUid)
            = t.followers.erase currentUid :=
          (List.Nodup.erase_eq_filter htnd currentUid).symm
        have hlenT : (t.followers.filter (fun i => i != currentUid)).length
            = t.followers.length - 1 := by
          rw [heraseT]
          exact List.length_erase_of_mem hmemT
        have hposT : 1 ≤ t.followers.length := List.length_pos.mpr
          (by intro h; rw [h] at hmemT; exact (List.not_mem_nil _ hmemT))
        simp only [followUserTransaction, hmem, if_true] at htx
        obtain rfl : _ = r := Except.ok.inj htx
        refine ⟨?_, ?_⟩
        · simp only [hlen]
          omega
        · intro nt hnt
          obtain rfl : _ = nt := Option.some.inj hnt
          simp only [hlenT]
          omega
    | false =>
      have hmem' : targetUserId ∉ cu.following := by simp_all
      cases ts with
      | none =>
        simp only [followUserTransaction, hmem, if_false, Bool.false_eq_true] at htx
        obtain rfl : _ = r := Except.ok.inj htx
        refine ⟨?_, ?_⟩
        · simp only [List.length_append, List.length_cons, List.length_nil]
          push_cast
          omega
        · intro nt hnt
          obtain rfl : _ = nt := Option.some.inj hnt
          simp
      | some t =>
        obtain ⟨htc, _, _⟩ := htgt t rfl
        simp only [followUserTransaction, hmem, if_false, Bool.false_eq_true] at htx
        obtain rfl : _ = r := Except.ok.inj htx
        refine ⟨?_, ?_⟩
        · simp only [List.length_append, List.length_cons, List.length_nil]
          push_cast
          omega
        · intro nt hnt
          obtain rfl : _ = nt := Option.some.inj hnt
          simp only [List.length_append, List.length_cons, List.length_nil]
          push_cast
          omega

/-- Counterexample for C1 as stated: an unfollow in which every written
entity satisfies the set-cardinality-equals-count precondition (the
actor's following list is exactly the target, the target's followers
list holds one other user and followersCount 1), yet after the
transaction the written target document has followers of length 1 and
followersCount 0: the filter removes no element because the actor is not
in the followers list, while the count is still decremented. -/
theorem follow_count_invariant_counterexample :
    (([("t")] : List String).length : Int) = 1 ∧
    (([("a")] : List String).length : Int) = 1 ∧
    ∃ nc nt, followUserTransaction ("u") ("t") none 0
        (some ⟨("u"), ("e"), ("du"), (""), (""), 0, 1, 0, [], [("t")], [], 0⟩)
        (some ⟨("t"), ("e2"), ("dt"), (""), (""), 1, 0, 0, [("a")], [], [], 0⟩)
      = Except.ok (nc, some nt) ∧
    (nt.followers.length : Int) ≠ nt.followersCount := by
  refine ⟨by decide, by decide, _, _, rfl, by decide⟩

/-- Witness for toggle_count_invariant: both parts applied at concrete
inputs, a like on a post with no likes and a follow with a missing
target document. -/
theorem toggle_count_invariant_witness :
    ∃ (r : PostDoc × UserDoc) (s : UserDoc × Option UserDoc),
      toggleLikeTransaction ("u1") ("e") ("d") ("p1") 0
          (some { likes := [], likeCount := 0 }) none = Except.ok r ∧
      ((r.1.likes.length : Int) = r.1.likeCount ∧
        (r.2.followers.length : Int) = r.2.followersCount ∧
        (r.2.following.length : Int) = r.2.followingCount) ∧
      followUserTransaction ("u1") ("t1") none 0
          (some ⟨("u1"), ("e"), ("d"), (""), (""), 0, 0, 0, [], [], [], 0⟩) none
        = Except.ok s ∧
      ((s.1.following.length : Int) = s.1.followingCount ∧
        ∀ nt : UserDoc, s.2 = some nt → (nt.followers.length : Int) = nt.followersCount) := by
  refine ⟨_, _, rfl, ?_, rfl, ?_⟩
  · exact toggle_count_invariant.1 ("u1") ("e") ("d") ("p1") 0
      { likes := [], likeCount := 0 } none _ (by decide) (fun u h => by cases h) rfl
  · exact toggle_count_invariant.2 ("u1") ("t1") none 0
      ⟨("u1"), ("e"), ("d"), (""), (""), 0, 0, 0, [], [], [], 0⟩ none _
      (by decide) (by decide) (fun t h => by cases h) rfl

/-- C4: the piecewise location score for a known finite distance is
monotonically non-decreasing; at each segment boundary the two adjacent
formulas agree (value 100 at distance 10, value 300 at distance 50,
value 600 at distance 200); and the score equals the cap 1000 from the
point where the last segment saturates onwards (distance at least 600,
which covers every distance beyond 600 km past the 200 km boundary). -/
theorem locationScore_monotone_boundaries :
    (∀ d1 d2 : ℝ, d1 ≤ d2 → Search.locationScore d1 ≤ Search.locationScore d2) ∧
    Search.locationScore 10 = 100 ∧ (10 : ℝ) * 10 = 100 + ((10 : ℝ) - 10) * 5 ∧
    Search.locationScore 50 = 300 ∧
      100 + ((50 : ℝ) - 10) * 5 = 300 + ((50 : ℝ) - 50) * 2 ∧
    Search.locationScore 200 = 600 ∧
      300 + ((200 : ℝ) - 50) * 2 = 600 + min ((200 : ℝ) - 200) 400 ∧
    (∀ d : ℝ, 600 ≤ d → Search.locationScore d = 1000) := by
  refine ⟨?_, ?_, by norm_num, ?_, by norm_num, ?_, by norm_num, ?_⟩
  · intro d1 d2 h
    simp only [Search.locationScore, min_def]
    split_ifs <;> linarith
  · norm_num [Search.locationScore]
  · norm_num [Search.locationScore]
  · norm_num [Search.locationScore]
  · intro d hd
    rw [Search.locationScore, if_neg (by linarith), if_neg (by linarith),
      if_neg (by linarith), min_eq_right (by linarith)]
    norm_num

/-- Witness for locationScore_monotone_boundaries: monotonicity applied
at distances 3 and 7, and the cap applied at distance 601. -/
theorem locationScore_monotone_boundaries_witness :
    ((3 : ℝ) ≤ 7 ∧ Search.locationScore 3 ≤ Search.locationScore 7) ∧
    ((600 : ℝ) ≤ 601 ∧ Search.locationScore 601 = 1000) :=
  ⟨⟨by norm_num, locationScore_monotone_boundaries.1 3 7 (by norm_num)⟩,
   ⟨by norm_num, locationScore_monotone_boundaries.2.2.2.2.2.2.2 601 (by norm_num)⟩⟩

/-- C5: whenever no distance can be computed and no sport overlap exists,
the scorer assigns locationScore 1000 and ratingScore 100, so the
composite score is exactly 0.7 * 1000 + 0.3 * 100 = 730 (the value the
implementation constants yield; the spec figure 750 is a miscalculation);
in particular a viewer with neither location nor ratings data gives every
candidate the composite 730. -/
theorem score_no_signal_730 :
    (∀ (cur : Search.CurrentUserProfile)
        (users : String → Option Search.CurrentUserProfile)
        (post : Search.PostData),
      Search.calculateDistance cur.location (Search.postUserLocation users post) = none →
      Search.calculateSportRatingDifference cur.sportRatings
          (Search.postUserSportRatings users post) = none →
      (Search.scorePost cur users post).score = 730) ∧
    (∀ cur : Search.CurrentUserProfile, cur.location = none → cur.sportRatings = none →
      ∀ users post, (Search.scorePost cur users post).score = 730) := by
  have part1 : ∀ (cur : Search.CurrentUserProfile)
      (users : String → Option Search.CurrentUserProfile)
      (post : Search.PostData),
      Search.calculateDistance cur.location (Search.postUserLocation users post) = none →
      Search.calculateSportRatingDifference cur.sportRatings
          (Search.postUserSportRatings users post) = none →
      (Search.scorePost cur users post).score = 730 := by
    intro cur users post hd hr
    simp only [Search.scorePost, hd, hr, Search.locationScoreOf, Search.ratingScoreOf]
    norm_num
  refine ⟨part1, ?_⟩
  intro cur h1 h2 users post
  apply part1
  · rw [h1]
    cases Search.postUserLocation users post <;> rfl
  · rw [h2]
    cases Search.postUserSportRatings users post <;> rfl

/-- Witness for score_no_signal_730: a viewer with no location and no
ratings scores a bare candidate post at exactly 730. -/
theorem score_no_signal_730_witness :
    (Search.scorePost ⟨none, none⟩ (fun _ => none) ⟨("p1"), ("a1"), none, none⟩).score = 730 :=
  score_no_signal_730.2 ⟨none, none⟩ rfl rfl (fun _ => none) ⟨("p1"), ("a1"), none, none⟩

/-- The accumulator loop of calculateSportRatingDifference computes the
sum of absolute differences and the count over exactly the sports rated
nonzero on both sides. -/
theorem rating_foldl_eq (ur pr : Search.SportRatings) (l : List Search.Sport)
    (s0 : ℝ) (n0 : ℕ) :
    l.foldl (fun acc sport =>
      match ur sport, pr sport with
      | some u, some p => if u ≠ 0 ∧ p ≠ 0 then (acc.1 + |u - p|, acc.2 + 1) else acc
      | _, _ => acc) (s0, n0)
    = (s0 + ((l.filter (Search.bothRatedNonzero ur pr)).map
          (fun s => |(ur s).getD 0 - (pr s).getD 0|)).sum,
       n0 + (l.filter (Search.bothRatedNonzero ur pr)).length) := by
  induction l generalizing s0 n0 with
  | nil => simp
  | cons a t ih =>
    rw [List.foldl_cons, List.filter_cons]
    cases hu : ur a with
    | none => simp [Search.bothRatedNonzero, hu, ih]
    | some u =>
      cases hp : pr a with
      | none => simp [Search.bothRatedNonzero, hu, hp, ih]
      | some p =>
        by_cases hz : u ≠ 0 ∧ p ≠ 0
        · have hb : Search.bothRatedNonzero ur pr a = true := by
            simp [Search.bothRatedNonzero, hu, hp, hz.1, hz.2]
          simp only [hu, hp, if_pos hz, hb, if_true, ih, List.map_cons,
            List.sum_cons, List.length_cons, hu, hp, Option.getD_some]
          rw [Prod.mk.injEq]
          exact ⟨by ring, by omega⟩
        · have hb : Search.bothRatedNonzero ur pr a = false := by
            simp only [Search.bothRatedNonzero, hu, hp, Bool.and_eq_false_iff,
              decide_eq_false_iff_not, not_not]
            rcases not_and_or.mp hz with h | h
            · exact Or.inl (not_not.mp h)
            · exact Or.inr (not_not.mp h)
          simp only [hu, hp, if_neg hz, hb, Bool.false_eq_true, if_false, ih]

/-- C6 (amended): the skill-similarity value equals the average, over all
sports present with a nonzero rating in both profiles, of the absolute
rating difference, and is the unknown sentinel when there is no such
sport; the rating score is 100 for the unknown sentinel and otherwise
the average difference times 10.  (As stated, with presence alone, the
claim fails: a rating of 0 is treated as absent.) -/
theorem sportRatingDifference_spec :
    (∀ ur pr, Search.calculateSportRatingDifference ur pr
        = Search.specSkillSimilarityNonzero ur pr) ∧
    Search.ratingScoreOf none = 100 ∧
    (∀ r : ℝ, Search.ratingScoreOf (some r) = r * 10) := by
  refine ⟨?_, rfl, fun r => rfl⟩
  intro ur pr
  cases ur with
  | none => cases pr <;> rfl
  | some u =>
    cases pr with
    | none => rfl
    | some p =>
      simp only [Search.calculateSportRatingDifference, Search.specSkillSimilarityNonzero]
      rw [rating_foldl_eq]
      simp

/-- Counterexample for C6 as stated: with a sport (tennis) whose rating
key is present in both profiles but equal to 0 on one side, the
implementation returns the unknown sentinel while the average over the
sports present in both profiles is |0 - 5| = 5. -/
theorem sportRatingDifference_zero_counterexample :
    Search.calculateSportRatingDifference
        (some (fun s => match s with | Search.Sport.tennis => some 0 | _ => none))
        (some (fun s => match s with | Search.Sport.tennis => some 5 | _ => none)) = none ∧
    Search.specSkillSimilarity
        (some (fun s => match s with | Search.Sport.tennis => some 0 | _ => none))
        (some (fun s => match s with | Search.Sport.tennis => some 5 | _ => none)) = some 5 ∧
    (none : Option ℝ) ≠ some 5 := by
  refine ⟨?_, ?_, by simp⟩
  · simp [Search.calculateSportRatingDifference, Search.sports]
  · simp only [Search.specSkillSimilarity, Search.sports]
    norm_num

/-- In the concrete scenario the viewer's latitude 0 is falsy, so the
guard of calculateDistance fires and the distance to candidate A is the
Infinity sentinel, even though both locations are present. -/
theorem distance_scenarioA :
    Search.calculateDistance viewerScenario.location
      (Search.postUserLocation noUsers candidateA) = none := by
  simp [viewerScenario, candidateA, noUsers, Search.postUserLocation,
    Search.calculateDistance]

/-- Candidate B has no location anywhere, so the distance is the
Infinity sentinel. -/
theorem distance_scenarioB :
    Search.calculateDistance viewerScenario.location
      (Search.postUserLocation noUsers candidateB) = none := by
  simp [viewerScenario, candidateB, noUsers, Search.postUserLocation,
    Search.calculateDistance]

/-- Two tennis-only profiles with rating 5 have average difference 0. -/
theorem ratingDifference_tennisFive :
    Search.calculateSportRatingDifference (some tennisFive) (some tennisFive)
      = some 0 := by
  norm_num [Search.calculateSportRatingDifference, Search.sports, tennisFive]

/-- Evaluation of the scorer on candidate A: distance sentinel, rating
difference 0, composite 1000 * 0.7 + 0 * 0.3 = 700. -/
theorem scorePost_scenarioA :
    Search.scorePost viewerScenario noUsers candidateA
      = { post := candidateA, score := 700, distance := none } := by
  have hd := distance_scenarioA
  have hr : Search.calculateSportRatingDifference viewerScenario.sportRatings
      (Search.postUserSportRatings noUsers candidateA) = some 0 := by
    have : Search.postUserSportRatings noUsers candidateA = some tennisFive := by
      simp [Search.postUserSportRatings, candidateA, noUsers]
    rw [this]
    show Search.calculateSportRatingDifference viewerScenario.sportRatings
      (some tennisFive) = some 0
    rw [show viewerScenario.sportRatings = some tennisFive from rfl]
    exact ratingDifference_tennisFive
  simp only [Search.scorePost, hd, hr, Search.locationScoreOf, Search.ratingScoreOf]
  rw [Search.ScoredPost.mk.injEq]
  refine ⟨rfl, by norm_num, rfl⟩

/-- Evaluation of the scorer on candidate B: distance sentinel, rating
difference 0, composite 700. -/
theorem scorePost_scenarioB :
    Search.scorePost viewerScenario noUsers candidateB
      = { post := candidateB, score := 700, distance := none } := by
  have hd := distance_scenarioB
  have hr : Search.calculateSportRatingDifference viewerScenario.sportRatings
      (Search.postUserSportRatings noUsers candidateB) = some 0 := by
    have : Search.postUserSportRatings noUsers candidateB = some tennisFive := by
      simp [Search.postUserSportRatings, candidateB, noUsers]
    rw [this]
    rw [show viewerScenario.sportRatings = some tennisFive from rfl]
    exact ratingDifference_tennisFive
  simp only [Search.scorePost, hd, hr, Search.locationScoreOf, Search.ratingScoreOf]
  rw [Search.ScoredPost.mk.injEq]
  refine ⟨rfl, by norm_num, rfl⟩

/-- The comparator is transitive. -/
theorem byScore_trans : ∀ a b c : Search.ScoredPost,
    Search.byScore a b → Search.byScore b c → Search.byScore a c := by
  intro a b c hab hbc
  simp only [Search.byScore, decide_eq_true_eq] at hab hbc ⊢
  exact le_trans hab hbc

/-- The comparator is total. -/
theorem byScore_total : ∀ a b : Search.ScoredPost,
    Search.byScore a b || Search.byScore b a := by
  intro a b
  simp only [Search.byScore, Bool.or_eq_true, decide_eq_true_eq]
  exact le_total a.score b.score

/-- Full evaluation of the recommendation pipeline on the concrete
scenario: both candidates score 700, and the stable sort keeps the input
order A before B. -/
theorem loadRecommendations_scenario :
    Search.loadRecommendations ("viewer") viewerScenario noUsers [candidateA, candidateB]
      = [{ post := candidateA, score := 700, distance := none },
         { post := candidateB, score := 700, distance := none }] := by
  have hf : ([candidateA, candidateB].filter (fun p => p.userId != ("viewer")))
      = [candidateA, candidateB] := by
    simp [candidateA, candidateB]
  have hsorted : List.Pairwise (fun a b => Search.byScore a b = true)
      [({ post := candidateA, score := 700, distance := none } : Search.ScoredPost),
       { post := candidateB, score := 700, distance := none }] := by
    refine List.Pairwise.cons ?_
      (List.Pairwise.cons (fun b hb => absurd hb (List.not_mem_nil b)) List.Pairwise.nil)
    intro b hb
    have hb2 : b = ({ post := candidateB, score := 700, distance := none } : Search.ScoredPost) := by
      simpa using hb
    subst hb2
    exact decide_eq_true (le_refl (700 : ℝ))
  simp only [Search.loadRecommendations, hf, List.map_cons, List.map_nil,
    scorePost_scenarioA, scorePost_scenarioB]
  rw [List.mergeSort_of_sorted hsorted]
  rfl

/-- Counterexample for C7 as stated: for the claimed concrete inputs the
scorer does not compute distance 10 and composite 70 for candidate A; it
computes the Infinity sentinel and composite 700, because the falsy-zero
presence guard discards the viewer's latitude-0 location. -/
theorem scenario_distance_counterexample :
    (Search.scorePost viewerScenario noUsers candidateA).distance ≠ some 10 ∧
    (Search.scorePost viewerScenario noUsers candidateA).score ≠ 70 ∧
    (Search.scorePost viewerScenario noUsers candidateA).distance = none ∧
    (Search.scorePost viewerScenario noUsers candidateA).score = 700 := by
  rw [scorePost_scenarioA]
  exact ⟨by simp, by norm_num, rfl, rfl⟩

/-- C7 (amended): with the viewer at (0, 0) and tennis rating 5,
candidate A at (0, 0.09) and candidate B without location (both with
tennis rating 5), the falsy-zero presence guard treats the viewer's
location as missing, so both candidates get locationScore 1000,
ratingScore 0 and composite 700, and the stable sort ranks A (first in
the input) before B. -/
theorem recommendations_scenario :
    Search.loadRecommendations ("viewer") viewerScenario noUsers [candidateA, candidateB]
      = [{ post := candidateA, score := 700, distance := none },
         { post := candidateB, score := 700, distance := none }] ∧
    (Search.scorePost viewerScenario noUsers candidateA).score = 700 ∧
    (Search.scorePost viewerScenario noUsers candidateB).score = 700 :=
  ⟨loadRecommendations_scenario, by rw [scorePost_scenarioA], by rw [scorePost_scenarioB]⟩

/-- C8: for every input candidate list (and every viewer and users map)
the ranked output has at most 15 elements and every adjacent pair is in
non-decreasing composite-score order. -/
theorem recommendations_length_sorted (uid : String)
    (cur : Search.CurrentUserProfile) (users : String → Option Search.CurrentUserProfile)
    (posts : List Search.PostData) :
    (Search.loadRecommendations uid cur users posts).length ≤ 15 ∧
    (Search.loadRecommendations uid cur users posts).Chain'
      (fun a b => a.score ≤ b.score) := by
  constructor
  · simp only [Search.loadRecommendations]
    rw [List.length_take]
    exact min_le_left _ _
  · have hp := List.sorted_mergeSort byScore_trans byScore_total
      ((posts.filter (fun p => p.userId != uid)).map (Search.scorePost cur users))
    have hsub := List.take_sublist 15
      (((posts.filter (fun p => p.userId != uid)).map
        (Search.scorePost cur users)).mergeSort Search.byScore)
    have hp2 := (hp.sublist hsub).imp
      (fun h => by simpa [Search.byScore] using h)
    exact hp2.chain'

/-- C9: the ranking is stable.  If two scored candidates with equal
composite scores occur in this relative order in the scored input
sequence (the filtered input in input order, scored), the sequence has
no duplicate entries (distinct candidates), and the later one appears in
the ranked output, then both appear in the ranked output in the same
relative order as in the input. -/
theorem recommendations_stable (uid : String)
    (cur : Search.CurrentUserProfile) (users : String → Option Search.CurrentUserProfile)
    (posts : List Search.PostData) (x y : Search.ScoredPost)
    (hnd : ((posts.filter (fun p => p.userId != uid)).map (Search.scorePost cur users)).Nodup)
    (hs : x.score = y.score)
    (hsub : List.Sublist [x, y] ((posts.filter (fun p => p.userId != uid)).map (Search.scorePost cur users)))
    (hy : y ∈ Search.loadRecommendations uid cur users posts) :
    List.Sublist [x, y] (Search.loadRecommendations uid cur users posts) := by
  simp only [Search.loadRecommendations] at hy ⊢
  have hxy : Search.byScore x y = true := decide_eq_true (le_of_eq hs)
  have hpair : List.Sublist [x, y] (((posts.filter (fun p => p.userId != uid)).map
      (Search.scorePost cur users)).mergeSort Search.byScore) :=
    List.pair_sublist_mergeSort byScore_trans byScore_total hxy hsub
  have hndSorted : ((((posts.filter (fun p => p.userId != uid)).map
      (Search.scorePost cur users)).mergeSort Search.byScore)).Nodup :=
    ((List.mergeSort_perm _ Search.byScore).nodup_iff).mpr hnd
  set sorted := (((posts.filter (fun p => p.userId != uid)).map
    (Search.scorePost cur users)).mergeSort Search.byScore) with hsorted
  have hsplit : sorted = sorted.take 15 ++ sorted.drop 15 :=
    (List.take_append_drop 15 sorted).symm
  have hdisj : (sorted.take 15).Disjoint (sorted.drop 15) := by
    have h2 := hsplit ▸ hndSorted
    exact (List.nodup_append.mp h2).2.2
  rw [hsplit] at hpair
  obtain ⟨l1, l2, heq, h1, h2⟩ := List.sublist_append_iff.mp hpair
  have hyNotDrop : y ∉ sorted.drop 15 := fun hcontra => hdisj hy hcontra
  cases l1 with
  | nil =>
    exfalso
    apply hyNotDrop
    apply h2.subset
    rw [List.nil_append] at heq
    rw [heq.symm]
    simp
  | cons a l1 =>
    cases l1 with
    | nil =>
      exfalso
      apply hyNotDrop
      apply h2.subset
      have : [y] = l2 := by
        simpa using congrArg List.tail heq
      rw [this.symm]
      simp
    | cons b l1 =>
      have ha : x = a := by simpa using congrArg (fun l => l.headD x) heq
      have hb : y = b := by
        simpa using congrArg (fun l => (l.tail).headD x) heq
      have hl1 : l1 = [] ∧ l2 = [] := by
        have hlen := congrArg List.length heq
        simp at hlen
        exact hlen
      subst ha hb
      rw [hl1.1] at h1
      exact h1

/-- Evaluation of the filter-and-score stage on the concrete scenario. -/
theorem mapped_scenario :
    ([candidateA, candidateB].filter (fun p => p.userId != ("viewer"))).map
      (Search.scorePost viewerScenario noUsers)
    = [{ post := candidateA, score := 700, distance := none },
       { post := candidateB, score := 700, distance := none }] := by
  have hf : ([candidateA, candidateB].filter (fun p => p.userId != ("viewer")))
      = [candidateA, candidateB] := by
    simp [candidateA, candidateB]
  rw [hf, List.map_cons, List.map_cons, List.map_nil,
    scorePost_scenarioA, scorePost_scenarioB]

/-- Witness for recommendations_stable: the two concrete equal-score
candidates A and B keep their input order in the ranked output. -/
theorem recommendations_stable_witness :
    (([candidateA, candidateB].filter (fun p => p.userId != ("viewer"))).map
        (Search.scorePost viewerScenario noUsers)).Nodup ∧
    ({ post := candidateA, score := 700, distance := none } : Search.ScoredPost).score
      = ({ post := candidateB, score := 700, distance := none } : Search.ScoredPost).score ∧
    List.Sublist
      [({ post := candidateA, score := 700, distance := none } : Search.ScoredPost),
        { post := candidateB, score := 700, distance := none }]
      (([candidateA, candidateB].filter (fun p => p.userId != ("viewer"))).map
        (Search.scorePost viewerScenario noUsers)) ∧
    ({ post := candidateB, score := 700, distance := none } : Search.ScoredPost)
      ∈ Search.loadRecommendations ("viewer") viewerScenario noUsers [candidateA, candidateB] ∧
    List.Sublist
      [({ post := candidateA, score := 700, distance := none } : Search.ScoredPost),
        { post := candidateB, score := 700, distance := none }]
      (Search.loadRecommendations ("viewer") viewerScenario noUsers
        [candidateA, candidateB]) := by
  have hnd : (([candidateA, candidateB].filter (fun p => p.userId != ("viewer"))).map
      (Search.scorePost viewerScenario noUsers)).Nodup := by
    rw [mapped_scenario]
    refine List.nodup_cons.mpr ⟨?_, List.nodup_singleton _⟩
    intro h
    simp [candidateA, candidateB] at h
  have hsubm : List.Sublist
      [({ post := candidateA, score := 700, distance := none } : Search.ScoredPost),
        { post := candidateB, score := 700, distance := none }]
      (([candidateA, candidateB].filter (fun p => p.userId != ("viewer"))).map
        (Search.scorePost viewerScenario noUsers)) := by
    rw [mapped_scenario]
  have hmem : ({ post := candidateB, score := 700, distance := none } : Search.ScoredPost)
      ∈ Search.loadRecommendations ("viewer") viewerScenario noUsers
        [candidateA, candidateB] := by
    rw [loadRecommendations_scenario]
    simp
  exact ⟨hnd, rfl, hsubm, hmem,
    recommendations_stable ("viewer") viewerScenario noUsers [candidateA, candidateB]
      _ _ hnd rfl hsubm hmem⟩
